import Mathlib

/-!
# A2A Agent Registry — verification development

A shallow embedding of the registry core found in `src/main.py`,
`src/validator.py` and `src/database.py`: the agent-card data model, the
card validator, identifier (slug) assignment with collision probing,
registration, listing, searching, the heartbeat protocol and the derived
liveness flag.  Timestamps are modelled as integers (seconds); the
5-minute online threshold becomes 300 seconds.  Python exceptions
(HTTP errors, the `AttributeError` reachable in the capability filter)
are modelled with `Except`.
-/

namespace A2A

/-! ## String helpers with Python semantics

All recursions are structural (on lists or on a fuel counter) so the
kernel can evaluate them on concrete inputs. -/

/-- Python `needle in haystack` on the character lists. -/
def containsAux (n : List Char) : List Char → Bool
  | [] => n.isEmpty
  | c :: rest => n.isPrefixOf (c :: rest) || containsAux n rest

/-- Python `n in h` (substring containment). -/
def strContains (h n : String) : Bool := containsAux n.data h.data

/-- Python `str.lower()` (ASCII case folding, as used by the registry). -/
def strLower (s : String) : String := String.mk (s.data.map Char.toLower)

/-- Case-insensitive substring containment (Python `a.lower() in b.lower()`,
and the case-insensitivity of SQL `ilike '%x%'`). -/
def strContainsCI (h n : String) : Bool := strContains (strLower h) (strLower n)

/-- Python `str.strip()` on the character list. -/
def trimChars (l : List Char) : List Char :=
  ((l.dropWhile Char.isWhitespace).reverse.dropWhile Char.isWhitespace).reverse

/-- Python `str.strip()`. -/
def strTrim (s : String) : String := String.mk (trimChars s.data)

/-- Worker for `strReplace`; every step consumes at least one input
character, so fuel = input length suffices. -/
def replaceFuel (pat rep : List Char) : Nat → List Char → List Char
  | 0, l => l
  | _ + 1, [] => []
  | fuel + 1, c :: rest =>
    if pat.isPrefixOf (c :: rest) then
      rep ++ replaceFuel pat rep fuel ((c :: rest).drop pat.length)
    else
      c :: replaceFuel pat rep fuel rest

/-- Python `str.replace`: replaces every non-overlapping occurrence of
`pat`, scanning left to right (a nonempty `pat` is assumed by all call
sites; an empty `pat` leaves the string unchanged). -/
def strReplace (s pat rep : String) : String :=
  if pat.data.isEmpty then s else String.mk (replaceFuel pat.data rep.data s.data.length s.data)

/-- Python `str.startswith`. -/
def strStartsWith (s p : String) : Bool := p.data.isPrefixOf s.data

/-! ## Data model (`main.py` pydantic models and the stored row) -/

/-- `AgentCapabilities` (`main.py`, `validator.py`): named boolean flags. -/
structure AgentCapabilities where
  streaming : Bool := false
  pushNotifications : Bool := false
deriving DecidableEq

/-- `AgentSkill` (`main.py`, `validator.py`). -/
structure AgentSkill where
  id : String
  name : String
  description : Option String := none
  tags : List String := []
  examples : List String := []
deriving DecidableEq

/-- A parsed `AgentCard` (`main.py`): the shape of a request body that the
transport layer accepted.  `url` is the string form of a parsed `HttpUrl`;
pydantic's URL parsing happens before any of the embedded code runs, so a
value of this type witnesses a well-typed request. -/
structure AgentCard where
  name : String
  description : String
  url : String
  version : Option String := none
  defaultInputModes : List String := ["text"]
  defaultOutputModes : List String := ["text"]
  capabilities : Option AgentCapabilities := none
  skills : List AgentSkill := []
deriving DecidableEq

/-- The `capabilities` entry of a stored `card_json` document.  A JSON
object distinguishes a missing key (`absent`), an explicit `null`
(produced by `model_dump` when the optional field is `None`), and a
capabilities object. -/
inductive CapsField where
  | absent
  | null
  | obj (c : AgentCapabilities)
deriving DecidableEq

/-- The stored `card_json` document: the result of
`card.model_dump(mode='json')`. -/
structure CardJson where
  name : String
  description : String
  url : String
  version : Option String
  defaultInputModes : List String
  defaultOutputModes : List String
  capabilities : CapsField
  skills : List AgentSkill
deriving DecidableEq

/-- `model_dump(mode='json')` on a parsed card: every field is serialized,
an absent optional `capabilities` becoming an explicit JSON `null`. -/
def model_dump (c : AgentCard) : CardJson :=
  { name := c.name
    description := c.description
    url := c.url
    version := c.version
    defaultInputModes := c.defaultInputModes
    defaultOutputModes := c.defaultOutputModes
    capabilities := match c.capabilities with
      | none => .null
      | some caps => .obj caps
    skills := c.skills }

/-- The stored agent row (`database.py` `AgentModel` as used by
`main.py`): identifier, denormalized columns, the card document, and the
v2 liveness fields. -/
structure AgentRecord where
  id : String
  name : String
  description : String
  url : String
  card : CardJson
  registeredAt : Option Int
  lastSeen : Option Int
  verified : Bool
  heartbeatToken : String
  status : Option String
  load : Option Rat
  statusMessage : Option String
deriving DecidableEq

/-! ## Validator (`validator.py`) -/

/-- `AgentCard.name_must_be_valid` (`validator.py`): note the lower bound
is checked on the trimmed value but the upper bound on the raw value; on
success the trimmed value replaces the raw one. -/
def nameCheck (v : String) : Except String String :=
  if v = "" || (strTrim v).length < 2 then .error "Name must be at least 2 characters"
  else if 100 < v.length then .error "Name must be less than 100 characters"
  else .ok (strTrim v)

/-- `AgentCard.description_must_be_valid` (`validator.py`). -/
def descriptionCheck (v : String) : Except String String :=
  if v = "" || (strTrim v).length < 10 then .error "Description must be at least 10 characters"
  else if 1000 < v.length then .error "Description must be less than 1000 characters"
  else .ok (strTrim v)

/-- `AgentSkill.id_must_be_valid` (`validator.py`): nonempty after
stripping, and no space character. -/
def skillIdCheck (v : String) : Except String String :=
  if v = "" || strTrim v = "" then .error "Skill id cannot be empty"
  else if strContains v " " then .error "Skill id should not contain spaces (use hyphens or underscores)"
  else .ok v

/-- `ValidationResult` (`validator.py`). -/
structure ValidationResult where
  valid : Bool
  errors : List String := []
  warnings : List String := []
  card : Option CardJson := none
deriving DecidableEq

/-- Helper: the error of a field check, tagged with its dotted field path
(pydantic `"<loc>: <msg>"` formatting in `validate_agent_card`). -/
def fieldErrors (path : String) : Except String String → List String
  | .error msg => [path ++ ": " ++ msg]
  | .ok _ => []

/-- The errors pydantic collects when constructing `AgentCard(**card_data)`:
all field validators run and every failure is reported (no fail-fast),
nested skill ids under `skills.<i>.id`. -/
def cardErrors (c : AgentCard) : List String :=
  fieldErrors "name" (nameCheck c.name) ++
  fieldErrors "description" (descriptionCheck c.description) ++
  (c.skills.enum.map (fun p =>
    fieldErrors ("skills." ++ toString p.1 ++ ".id") (skillIdCheck p.2.id))).flatten

/-- Python truthiness of an optional string (`not x`). -/
def optStrFalsy : Option String → Bool
  | none => true
  | some s => s = ""

/-- The semantic warnings of `validate_agent_card`, in emission order. -/
def cardWarnings (c : AgentCard) : List String :=
  (if c.skills.isEmpty then
    ["Agent has no skills defined. Consider adding skills to help discovery."] else []) ++
  (if strStartsWith c.url "http://" && !strContains c.url "localhost" then
    ["URL uses HTTP instead of HTTPS. Consider using HTTPS for production."] else []) ++
  (if optStrFalsy c.version then
    ["No version specified. Consider adding a version for tracking changes."] else []) ++
  (c.skills.map (fun s =>
    (if optStrFalsy s.description then
      ["Skill \x27" ++ s.id ++ "\x27 has no description."] else []) ++
    (if s.examples.isEmpty then
      ["Skill \x27" ++ s.id ++ "\x27 has no examples. Examples help other agents understand usage."]
     else []))).flatten

/-- The card after the field validators succeeded: name and description
trimmed in place (the validators return the stripped values). -/
def normalizeCard (c : AgentCard) : AgentCard :=
  { c with name := strTrim c.name, description := strTrim c.description }

/-- `validate_agent_card` (`validator.py`): constructing the pydantic
model collects all structural errors; on failure the warning list is the
still-empty initial list, on success the semantic warnings are gathered
and the normalized card is returned as its dump. -/
def validate_agent_card (c : AgentCard) : ValidationResult :=
  match cardErrors c with
  | [] =>
    { valid := true
      errors := []
      warnings := cardWarnings c
      card := some (model_dump (normalizeCard c)) }
  | errs =>
    { valid := false
      errors := errs
      warnings := []
      card := none }

/-! ## Liveness (`main.py`) -/

/-- `ONLINE_THRESHOLD_MINUTES` (`main.py`). -/
def ONLINE_THRESHOLD_MINUTES : Int := 5

/-- The threshold window in seconds (timestamps are modelled in seconds). -/
def onlineThresholdSeconds : Int := ONLINE_THRESHOLD_MINUTES * 60

/-- `is_agent_online` (`main.py`): false when `last_seen` is unset,
otherwise `last_seen > now - threshold` (a strict comparison). -/
def is_agent_online (a : AgentRecord) (now : Int) : Bool :=
  match a.lastSeen with
  | none => false
  | some t => decide (now - onlineThresholdSeconds < t)

/-- The `state` object of an API response (`agent_model_to_response`). -/
structure DynamicStateOut where
  status : String
  load : Option Rat
  message : Option String
  online : Bool
deriving DecidableEq

/-- An agent as rendered by `agent_model_to_response`: note there is no
heartbeat-token field. -/
structure AgentResponse where
  id : String
  card : CardJson
  registered_at : Option Int
  last_seen : Option Int
  verified : Bool
  state : Option DynamicStateOut
deriving DecidableEq

/-- `agent_model_to_response` (`main.py`): renders the public fields plus,
when requested, the dynamic state (with `agent.status or "offline"`
Python truthiness). -/
def agent_model_to_response (a : AgentRecord) (include_state : Bool) (now : Int) :
    AgentResponse :=
  { id := a.id
    card := a.card
    registered_at := a.registeredAt
    last_seen := a.lastSeen
    verified := a.verified
    state := if include_state then
        some { status := match a.status with
                 | none => "offline"
                 | some s => if s = "" then "offline" else s
               load := a.load
               message := a.statusMessage
               online := is_agent_online a now }
      else none }

/-! ## Registration (`main.py` `register_agent`) -/

/-- The base slug: `name.lower().replace(" ", "-").replace("_", "-")`. -/
def slugify (name : String) : String :=
  strReplace (strReplace (strLower name) " " "-") "_" "-"

/-- `db.query(AgentModel).filter(AgentModel.id == agent_id).first()` is
some record. -/
def idTaken (db : List AgentRecord) (ident : String) : Bool :=
  db.any (fun a => a.id == ident)

/-- The collision-probing `while` loop of `register_agent`, with an
explicit fuel (the Python loop is unbounded; every iteration either exits
or moves to the next suffix, and `db.length + 1` candidates cannot all be
taken). -/
def probeLoop (db : List AgentRecord) (base : String) : String → Nat → Nat → String
  | ident, _, 0 => ident
  | ident, ctr, fuel + 1 =>
    if idTaken db ident then probeLoop db base (base ++ "-" ++ toString ctr) (ctr + 1) fuel
    else ident

/-- The identifier chosen by `register_agent` for a proposed base slug. -/
def probeId (db : List AgentRecord) (base : String) : String :=
  probeLoop db base base 1 (db.length + 1)

/-- `RegisterResponse` (`main.py`). -/
structure RegisterResponse where
  success : Bool
  agent_id : String
  message : String
  heartbeat_token : Option String := none
deriving DecidableEq

/-- `register_agent` (`main.py`): slugify the name, probe for a free
identifier, store the new row (status `offline`, no `last_seen`), and
return the identifier plus the freshly generated heartbeat token.  The
token and the clock reading are nondeterministic inputs passed explicitly. -/
def register_agent (db : List AgentRecord) (card : AgentCard)
    (heartbeat_token : String) (now : Int) : List AgentRecord × RegisterResponse :=
  let base_id := slugify card.name
  let agent_id := probeId db base_id
  let agent : AgentRecord :=
    { id := agent_id
      name := card.name
      description := card.description
      url := card.url
      card := model_dump card
      registeredAt := some now
      lastSeen := none
      verified := false
      heartbeatToken := heartbeat_token
      status := some "offline"
      load := none
      statusMessage := none }
  (db ++ [agent],
   { success := true
     agent_id := agent_id
     message := "Agent \x27" ++ card.name ++ "\x27 registered successfully"
     heartbeat_token := some heartbeat_token })

/-! ## SQL-level filters shared by `list_agents` and `search_agents` -/

/-- The `ilike` filter on name/description for a free-text query `q`
(Python truthiness: an empty string imposes no constraint). -/
def qFilter (db : List AgentRecord) (q : Option String) : List AgentRecord :=
  match q with
  | none => db
  | some s =>
    if s = "" then db
    else db.filter (fun a => strContainsCI a.name s || strContainsCI a.description s)

/-- The `online` filter: `last_seen > threshold` for `true`, and
`last_seen IS NULL OR last_seen <= threshold` for `false`. -/
def onlineFilter (db : List AgentRecord) (online : Option Bool) (now : Int) :
    List AgentRecord :=
  match online with
  | none => db
  | some true =>
    db.filter (fun a => match a.lastSeen with
      | some t => decide (now - onlineThresholdSeconds < t)
      | none => false)
  | some false =>
    db.filter (fun a => match a.lastSeen with
      | some t => decide (t ≤ now - onlineThresholdSeconds)
      | none => true)

/-- The explicit `status` filter (`if status:` — empty string imposes no
constraint; SQL `NULL = x` never matches). -/
def statusFilter (db : List AgentRecord) (status : Option String) : List AgentRecord :=
  match status with
  | none => db
  | some st =>
    if st = "" then db else db.filter (fun a => a.status == some st)

/-! ## Listing (`main.py` `list_agents`) -/

/-- The body of a `list_agents` response. -/
structure ListResponse where
  agents : List AgentResponse
  total : Nat
  limit : Nat
  offset : Nat
deriving DecidableEq

/-- `list_agents` (`main.py`): apply the optional online/status filters,
count the matches, then page with offset/limit and render each row. -/
def list_agents (db : List AgentRecord) (limit offset : Nat)
    (online : Option Bool) (status : Option String) (now : Int) : ListResponse :=
  { agents := (((statusFilter (onlineFilter db online now) status).drop offset).take limit).map
      (fun a => agent_model_to_response a true now)
    total := (statusFilter (onlineFilter db online now) status).length
    limit := limit
    offset := offset }

/-! ## Search (`main.py` `search_agents`) -/

/-- The optional predicates of `search_agents`. -/
structure SearchParams where
  skill : Option String := none
  tag : Option String := none
  q : Option String := none
  capability : Option String := none
  online : Option Bool := none
  status : Option String := none
deriving DecidableEq

/-- Capability flag lookup on the dumped capabilities object
(`caps.get(capability)` falsy for an unknown key or a `False` flag). -/
def capFlag (caps : AgentCapabilities) (c : String) : Bool :=
  if c = "streaming" then caps.streaming
  else if c = "pushNotifications" then caps.pushNotifications
  else false

/-- The skill filter of the search loop: substring match, case-insensitive,
against any skill id or skill name (`true` also when the predicate is
absent or empty). -/
def recPassesSkill (p : SearchParams) (a : AgentRecord) : Bool :=
  match p.skill with
  | none => true
  | some s =>
    if s = "" then true
    else a.card.skills.any (fun sk => strContainsCI sk.id s || strContainsCI sk.name s)

/-- The tag filter of the search loop: substring match, case-insensitive,
against any tag of any skill. -/
def recPassesTag (p : SearchParams) (a : AgentRecord) : Bool :=
  match p.tag with
  | none => true
  | some t =>
    if t = "" then true
    else a.card.skills.any (fun sk => sk.tags.any (fun tg => strContainsCI tg t))

/-- The capability filter of the search loop:
`caps = card.get('capabilities', {}); if not caps.get(capability): continue`.
`ok true` means keep the record, `ok false` means skip it, and `error`
models the `AttributeError` raised when the stored `capabilities` entry is
an explicit JSON `null` (then `card.get` returns `None`, not the `{}`
default, and `None.get` faults). -/
def recCapGate (p : SearchParams) (a : AgentRecord) : Except Unit Bool :=
  match p.capability with
  | none => .ok true
  | some c =>
    if c = "" then .ok true
    else match a.card.capabilities with
      | .absent => .ok false
      | .null => .error ()
      | .obj caps => .ok (capFlag caps c)

/-- The Python `for agent in agents:` filter loop of `search_agents`: an
uncaught exception aborts the whole request. -/
def searchLoop (p : SearchParams) (now : Int) :
    List AgentRecord → Except Unit (List AgentResponse)
  | [] => .ok []
  | a :: rest =>
    if recPassesSkill p a then
      if recPassesTag p a then
        match recCapGate p a with
        | .error e => .error e
        | .ok true =>
          match searchLoop p now rest with
          | .ok rs => .ok (agent_model_to_response a true now :: rs)
          | .error e => .error e
        | .ok false => searchLoop p now rest
      else searchLoop p now rest
    else searchLoop p now rest

/-- The body of a successful `search_agents` response. -/
structure SearchResponse where
  results : List AgentResponse
  count : Nat
  filters : SearchParams
deriving DecidableEq

/-- `search_agents` (`main.py`): SQL-level q/online/status filters first,
then the in-Python skill/tag/capability loop over the survivors. -/
def search_agents (db : List AgentRecord) (p : SearchParams) (now : Int) :
    Except Unit SearchResponse :=
  match searchLoop p now (statusFilter (onlineFilter (qFilter db p.q) p.online now) p.status) with
  | .ok rs => .ok { results := rs, count := rs.length, filters := p }
  | .error e => .error e

/-! ## Point read (`main.py` `get_agent`) and heartbeat -/

/-- An `HTTPException` as raised by the endpoints. -/
structure HttpError where
  code : Nat
  detail : String
deriving DecidableEq

/-- `get_agent` (`main.py`). -/
def get_agent (db : List AgentRecord) (agent_id : String) (now : Int) :
    Except HttpError AgentResponse :=
  match db.find? (fun a => a.id == agent_id) with
  | none => .error { code := 404, detail := "Agent not found" }
  | some a => .ok (agent_model_to_response a true now)

/-- `HeartbeatRequest` (`main.py`): `status` defaults to `"online"` and is
constrained by the pattern `^(online|offline|busy)$` at parse time. -/
structure HeartbeatRequest where
  status : Option String := some "online"
  load : Option Rat := none
  message : Option String := none
deriving DecidableEq

/-- `HeartbeatResponse` (`main.py`). -/
structure HeartbeatResponse where
  success : Bool
  agent_id : String
  last_seen : Int
  status : String
deriving DecidableEq

/-- Token extraction in `agent_heartbeat`:
`authorization.replace("Bearer ", "").strip()`. -/
def extractToken (h : String) : String := strTrim (strReplace h "Bearer " "")

/-- `request.status or "online"` (Python `or`: `None` and `""` both fall
back). -/
def heartbeatStatus (o : Option String) : String :=
  match o with
  | none => "online"
  | some s => if s = "" then "online" else s

/-- The successful mutation of `agent_heartbeat`: `last_seen := now`,
`status := request.status or "online"`, `load` and `status_message` only
when provided. -/
def applyHeartbeat (a : AgentRecord) (req : HeartbeatRequest) (now : Int) : AgentRecord :=
  { a with
    lastSeen := some now
    status := some (heartbeatStatus req.status)
    load := match req.load with
      | some l => some l
      | none => a.load
    statusMessage := match req.message with
      | some m => some m
      | none => a.statusMessage }

/-- `agent_heartbeat` (`main.py`): 404 when the id is unknown; 401 when
the Authorization header is absent (or empty — Python truthiness); 403
when the Bearer-stripped trimmed token is empty or differs from the
stored token; otherwise mutate the row and answer with the new state.
The store is threaded explicitly: every error path returns it untouched. -/
def agent_heartbeat (db : List AgentRecord) (agent_id : String) (req : HeartbeatRequest)
    (authorization : Option String) (now : Int) :
    List AgentRecord × Except HttpError HeartbeatResponse :=
  match db.find? (fun a => a.id == agent_id) with
  | none => (db, .error { code := 404, detail := "Agent not found" })
  | some agent =>
    match authorization with
    | none => (db, .error { code := 401, detail := "Authorization header required" })
    | some auth =>
      if auth = "" then (db, .error { code := 401, detail := "Authorization header required" })
      else
        let token := extractToken auth
        if token = "" || token != agent.heartbeatToken then
          (db, .error { code := 403, detail := "Invalid heartbeat token" })
        else
          let agent' := applyHeartbeat agent req now
          (db.map (fun b => if b.id == agent_id then agent' else b),
           .ok { success := true
                 agent_id := agent_id
                 last_seen := now
                 status := heartbeatStatus req.status })

/-- `delete_agent` (`main.py`). -/
def delete_agent (db : List AgentRecord) (agent_id : String) :
    List AgentRecord × Except HttpError Bool :=
  match db.find? (fun a => a.id == agent_id) with
  | none => (db, .error { code := 404, detail := "Agent not found" })
  | some _ => (db.filter (fun a => !(a.id == agent_id)), .ok true)

/-! ## Spec-side definition used for refinement comparison -/

/-- Modelled from the spec: the derived read
`isOnline(record, now) = lastSeen present and (now - lastSeen) <= 5 minutes`
(inclusive at exactly five minutes), for comparison with the code's
`is_agent_online`. -/
def isOnlineSpec (a : AgentRecord) (now : Int) : Bool :=
  match a.lastSeen with
  | none => false
  | some t => decide (now - t ≤ onlineThresholdSeconds)

/-! ## Concrete fixtures -/

/-- A card that passes every structural check. -/
def goodCard : AgentCard :=
  { name := "My Agent"
    description := "Does many useful things"
    url := "https://example.com"
    version := some "1.0" }

/-- A card failing the name and description structural checks. -/
def badCard : AgentCard := { goodCard with name := "x", description := "short" }

/-- A stored record as produced by registering `goodCard` (token `secret`). -/
def recA : AgentRecord :=
  { id := "my-agent"
    name := "My Agent"
    description := "Does many useful things"
    url := "https://example.com"
    card := model_dump goodCard
    registeredAt := some 0
    lastSeen := none
    verified := false
    heartbeatToken := "secret"
    status := some "offline"
    load := none
    statusMessage := none }

/-- `recA` having just received a heartbeat at time 0. -/
def recBoundary : AgentRecord := { recA with lastSeen := some 0 }

/-- A 101-character name whose trimmed length is 2. -/
def name101 : String := "ab" ++ String.mk (List.replicate 99 ' ')

/-! ## Helper lemmas on strings -/

/-- Length of a string append. -/
lemma strLength_append (a b : String) : (a ++ b).length = a.length + b.length :=
  String.length_append a b

/-- Appending a nonempty string changes the string. -/
lemma strAppend_ne_self (s t : String) (ht : t.length ≠ 0) : s ++ t ≠ s := by
  intro h
  have hl := congrArg String.length h
  rw [strLength_append] at hl
  omega

/-- A common left factor cancels in string equations. -/
lemma strAppend_right_cancel {s a b : String} (h : s ++ a = s ++ b) : a = b := by
  have hd : s.data ++ a.data = s.data ++ b.data := by
    have := congrArg String.data h
    simpa [String.data_append] using this
  obtain ⟨x⟩ := a
  obtain ⟨y⟩ := b
  exact congrArg String.mk (List.append_cancel_left hd)

/-- Distinct right factors give distinct appends. -/
lemma strAppend_right_ne (s : String) {a b : String} (hab : a ≠ b) : s ++ a ≠ s ++ b :=
  fun h => hab (strAppend_right_cancel h)

/-! ## Claim C1 -/

/-- C1 counterexample: the card with name `"x"` and description `"short"`
fails the Validator structural checks (`validate_agent_card` reports
errors), yet `register_agent` succeeds on it and persists a record —
registration does not invoke the Validator, so the claimed `InvalidCard`
failure path does not exist. -/
theorem C1_register_without_validation_cex :
    (validate_agent_card badCard).valid = false ∧
    (validate_agent_card badCard).errors ≠ [] ∧
    (register_agent [] badCard "tok" 0).2.success = true ∧
    (register_agent [] badCard "tok" 0).1.length = 1 := by
  refine ⟨rfl, by decide, rfl, rfl⟩

/-- C1 amended: `register_agent` runs no Validator structural checks — for
every request the transport accepted (well-typed card, parseable URL),
even one on which `validate_agent_card` reports structural errors,
registration succeeds and appends exactly one record to the store. -/
theorem C1_register_ignores_validator (db : List AgentRecord) (card : AgentCard)
    (tok : String) (now : Int)
    (hinvalid : (validate_agent_card card).valid = false) :
    (register_agent db card tok now).2.success = true ∧
    (register_agent db card tok now).1.length = db.length + 1 := by
  refine ⟨rfl, ?_⟩
  simp [register_agent]

/-- C1 amended, witnessed at the concrete invalid card. -/
theorem C1_register_ignores_validator_witness :
    (register_agent [] badCard "tok" 0).2.success = true ∧
    (register_agent [] badCard "tok" 0).1.length = List.length ([] : List AgentRecord) + 1 :=
  C1_register_ignores_validator [] badCard "tok" 0 rfl

/-! ## Claim C2 -/

/-- C2: a record registered from a card without a capabilities object
stores an explicit JSON `null` under `capabilities` (pydantic serializes
the `None` field), and a capability search over that store faults — the
`card.get('capabilities', {})` default never applies, `None.get(...)`
raises `AttributeError` — instead of excluding the record.  Only a card
document whose `capabilities` key is truly absent (unreachable through
registration) is excluded without fault. -/
theorem C2_capability_filter_faults_on_null :
    (model_dump goodCard).capabilities = CapsField.null ∧
    search_agents (register_agent [] goodCard "tok" 0).1
      { capability := some "streaming" } 0 = .error () ∧
    search_agents [{ recA with card := { recA.card with capabilities := CapsField.absent } }]
      { capability := some "streaming" } 0
      = .ok { results := [], count := 0, filters := { capability := some "streaming" } } :=
  ⟨rfl, rfl, rfl⟩

/-! ## Claim C3 -/

/-- C3 counterexample: at exactly the 5-minute boundary (`lastSeen = 0`,
`now = 300` seconds) the code's `is_agent_online` is false (it uses the
strict comparison `last_seen > now - threshold`) while the spec's
inclusive `now - lastSeen <= 5 minutes` is true. -/
theorem C3_online_boundary_cex :
    is_agent_online recBoundary 300 = false ∧ isOnlineSpec recBoundary 300 = true :=
  ⟨rfl, rfl⟩

/-- C3 amended: the derived online flag holds iff `lastSeen` is present
and `now - lastSeen` is strictly below 5 minutes (false at exactly
5 minutes), and it is false for a record that has never received a
heartbeat. -/
theorem C3_online_iff_strictly_within_threshold (a : AgentRecord) (now : Int) :
    (is_agent_online a now = true ↔
      ∃ t, a.lastSeen = some t ∧ now - t < onlineThresholdSeconds) ∧
    (a.lastSeen = none → is_agent_online a now = false) := by
  constructor
  · cases h : a.lastSeen with
    | none => simp [is_agent_online, h]
    | some t =>
      simp only [is_agent_online, h, decide_eq_true_eq, Option.some.injEq]
      constructor
      · intro hlt
        exact ⟨t, rfl, by omega⟩
      · rintro ⟨t', ht', hlt⟩
        subst ht'
        omega
  · intro h
    simp [is_agent_online, h]

/-- C3 amended, witnessed: a never-seen record is offline, and the record
one second inside the window is online. -/
theorem C3_online_iff_strictly_within_threshold_witness :
    is_agent_online recA 0 = false ∧ is_agent_online recBoundary 299 = true :=
  ⟨(C3_online_iff_strictly_within_threshold recA 0).2 rfl,
   (C3_online_iff_strictly_within_threshold recBoundary 299).1.mpr
     ⟨0, rfl, by decide⟩⟩

/-! ## Claim C5 -/

/-- C5 counterexample: on the same stored record, a missing Authorization
header yields HTTP 401 `Authorization header required` while a mismatched
token yields HTTP 403 `Invalid heartbeat token` — the two cases are
distinguished, contrary to the claim that no distinction is made. -/
theorem C5_missing_vs_mismatch_distinct_cex :
    (agent_heartbeat [recA] "my-agent" {} none 0).2
      = .error { code := 401, detail := "Authorization header required" } ∧
    (agent_heartbeat [recA] "my-agent" {} (some "wrong") 0).2
      = .error { code := 403, detail := "Invalid heartbeat token" } ∧
    ({ code := 401, detail := "Authorization header required" } : HttpError)
      ≠ { code := 403, detail := "Invalid heartbeat token" } :=
  ⟨rfl, rfl, by decide⟩

/-- C5 amended: on an existing record, a missing (or empty) Authorization
header is rejected with 401 `Authorization header required`, while a
present nonempty header whose Bearer-stripped trimmed token is empty or
differs from the stored token is rejected with 403 `Invalid heartbeat
token`: the two failure classes surface distinct errors. -/
theorem C5_missing_and_mismatch_distinguished
    (db : List AgentRecord) (agent_id : String) (req : HeartbeatRequest) (now : Int)
    (a : AgentRecord) (hfind : db.find? (fun b => b.id == agent_id) = some a) :
    (agent_heartbeat db agent_id req none now).2
      = .error { code := 401, detail := "Authorization header required" } ∧
    (agent_heartbeat db agent_id req (some "") now).2
      = .error { code := 401, detail := "Authorization header required" } ∧
    (∀ hd, hd ≠ "" → (extractToken hd = "" ∨ extractToken hd ≠ a.heartbeatToken) →
      (agent_heartbeat db agent_id req (some hd) now).2
        = .error { code := 403, detail := "Invalid heartbeat token" }) := by
  refine ⟨?_, ?_, ?_⟩
  · simp [agent_heartbeat, hfind]
  · simp [agent_heartbeat, hfind]
  · intro hd hne hbad
    rcases hbad with hb | hb
    · simp [agent_heartbeat, hfind, hne, hb]
    · simp [agent_heartbeat, hfind, hne, hb]

/-- C5 amended, witnessed at a concrete mismatched token. -/
theorem C5_missing_and_mismatch_distinguished_witness :
    (agent_heartbeat [recA] "my-agent" {} (some "wrong") 5).2
      = .error { code := 403, detail := "Invalid heartbeat token" } :=
  (C5_missing_and_mismatch_distinguished [recA] "my-agent" {} 5 recA rfl).2.2
    "wrong" (by decide) (Or.inr (by decide))

/-! ## Claim C4 -/

/-- C4: on an existing record, any failing token check — header absent,
header empty, extracted token empty, or extracted token different from the
stored one — leaves the store exactly as it was and surfaces an error. -/
theorem C4_heartbeat_rejected_no_mutation
    (db : List AgentRecord) (agent_id : String) (req : HeartbeatRequest)
    (authorization : Option String) (now : Int) (a : AgentRecord)
    (hfind : db.find? (fun b => b.id == agent_id) = some a)
    (hauth : authorization = none ∨ authorization = some "" ∨
      ∃ hd, authorization = some hd ∧
        (extractToken hd = "" ∨ extractToken hd ≠ a.heartbeatToken)) :
    (agent_heartbeat db agent_id req authorization now).1 = db ∧
    ∃ e, (agent_heartbeat db agent_id req authorization now).2 = .error e := by
  rcases hauth with rfl | rfl | ⟨hd, rfl, hbad⟩
  · refine ⟨?_, ⟨{ code := 401, detail := "Authorization header required" }, ?_⟩⟩ <;>
      simp [agent_heartbeat, hfind]
  · refine ⟨?_, ⟨{ code := 401, detail := "Authorization header required" }, ?_⟩⟩ <;>
      simp [agent_heartbeat, hfind]
  · by_cases hhd : hd = ""
    · subst hhd
      refine ⟨?_, ⟨{ code := 401, detail := "Authorization header required" }, ?_⟩⟩ <;>
        simp [agent_heartbeat, hfind]
    · rcases hbad with hb | hb
      · refine ⟨?_, ⟨{ code := 403, detail := "Invalid heartbeat token" }, ?_⟩⟩ <;>
          simp [agent_heartbeat, hfind, hhd, hb]
      · refine ⟨?_, ⟨{ code := 403, detail := "Invalid heartbeat token" }, ?_⟩⟩ <;>
          simp [agent_heartbeat, hfind, hhd, hb]

/-- C4, witnessed at a concrete mismatched Bearer header. -/
theorem C4_heartbeat_rejected_no_mutation_witness :
    (agent_heartbeat [recA] "my-agent" {} (some "Bearer nope") 7).1 = [recA] ∧
    ∃ e, (agent_heartbeat [recA] "my-agent" {} (some "Bearer nope") 7).2 = .error e :=
  C4_heartbeat_rejected_no_mutation [recA] "my-agent" {} (some "Bearer nope") 7 recA rfl
    (Or.inr (Or.inr ⟨"Bearer nope", rfl, Or.inr (by decide)⟩))

/-! ## Claim C6: helper lemmas about which errors reference the name field -/

/-- A name-field error string begins with `name:`. -/
lemma startsWith_name_prefix (msg : String) :
    strStartsWith ("name: " ++ msg) "name:" = true := by
  obtain ⟨l⟩ := msg
  rfl

/-- A description-field error string does not begin with `name:`. -/
lemma desc_error_not_name (msg : String) :
    strStartsWith ("description" ++ ": " ++ msg) "name:" = false := by
  obtain ⟨l⟩ := msg
  rfl

/-- Nothing that begins with `skills.` begins with `name:`. -/
lemma startsWith_skills_not_name (r : String) :
    strStartsWith ("skills." ++ r) "name:" = false := by
  obtain ⟨l⟩ := r
  rfl

/-- A skill-id error string does not begin with `name:`. -/
lemma skill_error_not_name (t msg : String) :
    strStartsWith ("skills." ++ t ++ ".id" ++ ": " ++ msg) "name:" = false := by
  simp only [String.append_assoc]
  exact startsWith_skills_not_name _

/-- Counting name-field errors among the name component of `cardErrors`. -/
lemma countP_fieldErrors_name (r : Except String String) :
    (fieldErrors "name" r).countP (fun e => strStartsWith e "name:")
      = if r.isOk then 0 else 1 := by
  cases r with
  | ok v => rfl
  | error m =>
    simp [fieldErrors, List.countP_cons, List.countP_nil, startsWith_name_prefix m,
      Except.isOk, Except.toBool]

/-- A field whose error strings never begin with `name:` contributes no
name-field error. -/
lemma countP_fieldErrors_notname (path : String) (r : Except String String)
    (hp : ∀ msg, strStartsWith (path ++ ": " ++ msg) "name:" = false) :
    (fieldErrors path r).countP (fun e => strStartsWith e "name:") = 0 := by
  cases r with
  | ok v => rfl
  | error m => simp [fieldErrors, List.countP_cons, hp m]

/-- The skill-id errors contribute no name-field error. -/
lemma countP_skillErrors (skills : List AgentSkill) :
    ((skills.enum.map (fun p =>
        fieldErrors ("skills." ++ toString p.1 ++ ".id") (skillIdCheck p.2.id))).flatten).countP
      (fun e => strStartsWith e "name:") = 0 := by
  rw [List.countP_eq_zero]
  intro e he
  rw [List.mem_flatten] at he
  obtain ⟨l, hl, hel⟩ := he
  rw [List.mem_map] at hl
  obtain ⟨pr, _, rfl⟩ := hl
  cases hsk : skillIdCheck pr.2.id with
  | ok v => rw [hsk] at hel; simp [fieldErrors] at hel
  | error m =>
    rw [hsk] at hel
    simp only [fieldErrors, List.mem_singleton] at hel
    subst hel
    simp [skill_error_not_name]

/-- The total count of errors referencing the name field. -/
lemma countP_cardErrors_name (c : AgentCard) :
    (cardErrors c).countP (fun e => strStartsWith e "name:")
      = if (nameCheck c.name).isOk then 0 else 1 := by
  unfold cardErrors
  rw [List.countP_append, List.countP_append, countP_fieldErrors_name,
    countP_fieldErrors_notname "description" _ desc_error_not_name, countP_skillErrors]
  simp only [Nat.add_zero]

/-- `validate_agent_card` reports exactly the pydantic field errors. -/
lemma validate_errors_eq (c : AgentCard) :
    (validate_agent_card c).errors = cardErrors c := by
  unfold validate_agent_card
  cases h : cardErrors c with
  | nil => rfl
  | cons e es => rfl

/-- C6 counterexample: `name101` has raw length 101 but trimmed length 2
(within [2,100]), yet the validator reports a name error — the upper bound
is checked on the raw length, not the trimmed length. -/
theorem C6_name_trim_vs_raw_cex :
    (strTrim name101).length = 2 ∧ name101.length = 101 ∧
    (validate_agent_card { goodCard with name := name101 }).errors
      = ["name: Name must be less than 100 characters"] ∧
    (validate_agent_card { goodCard with name := name101 }).valid = false := by
  refine ⟨by decide, by decide, by decide, by decide⟩

/-- C6 amended: the validator errors on the name iff the trimmed length is
below 2 or the RAW length exceeds 100; when it errors, exactly one
reported error references the name field; and on success the trimmed name
replaces the raw value in the normalized card. -/
theorem C6_name_validation_characterization (c : AgentCard) :
    ((nameCheck c.name).isOk = false ↔
      ((strTrim c.name).length < 2 ∨ 100 < c.name.length)) ∧
    ((validate_agent_card c).errors.countP (fun e => strStartsWith e "name:")
      = if (nameCheck c.name).isOk then 0 else 1) ∧
    ((validate_agent_card c).valid = true →
      ∃ d, (validate_agent_card c).card = some d ∧ d.name = strTrim c.name) := by
  refine ⟨?_, ?_, ?_⟩
  · unfold nameCheck
    split_ifs with h1 h2
    · refine iff_of_true rfl ?_
      rw [Bool.or_eq_true, decide_eq_true_eq, decide_eq_true_eq] at h1
      rcases h1 with h | h
      · exact Or.inl (by rw [h]; decide)
      · exact Or.inl h
    · exact iff_of_true rfl (Or.inr h2)
    · refine iff_of_false (by simp [Except.isOk, Except.toBool]) ?_
      rw [Bool.or_eq_true, decide_eq_true_eq, decide_eq_true_eq] at h1
      push_neg at h1
      obtain ⟨h1a, h1b⟩ := h1
      rintro (h | h)
      · omega
      · exact h2 h
  · rw [validate_errors_eq]
    exact countP_cardErrors_name c
  · intro hv
    unfold validate_agent_card at hv ⊢
    cases h : cardErrors c with
    | nil => exact ⟨model_dump (normalizeCard c), rfl, rfl⟩
    | cons e es =>
      rw [h] at hv
      simp at hv

/-- C6 amended, witnessed: the invalid card errors on the name and the
valid card normalizes it. -/
theorem C6_name_validation_characterization_witness :
    (nameCheck badCard.name).isOk = false ∧
    ∃ d, (validate_agent_card goodCard).card = some d ∧ d.name = strTrim goodCard.name :=
  ⟨(C6_name_validation_characterization badCard).1.mpr (Or.inl (by decide)),
   (C6_name_validation_characterization goodCard).2.2 rfl⟩

/-! ## Claim C7 -/

/-- The statuses the pattern `^(online|offline|busy)$` admits for a parsed
`HeartbeatRequest` (the field is optional). -/
def validStatusOpt (o : Option String) : Prop :=
  o = none ∨ o = some "online" ∨ o = some "offline" ∨ o = some "busy"

/-- C7: a heartbeat with a correct token on an existing record answers
success, sets `lastSeen := now` and `status` to the provided status (or
`online` when none is provided), updates `load` and `statusMessage` only
when provided, and leaves every other field — id, card, registeredAt,
heartbeatToken, and the denormalized columns — unchanged; the new store is
the old one with exactly the matching record replaced. -/
theorem C7_heartbeat_success_updates
    (db : List AgentRecord) (agent_id : String) (req : HeartbeatRequest)
    (hdr : String) (now : Int) (a : AgentRecord)
    (hfind : db.find? (fun b => b.id == agent_id) = some a)
    (hne : hdr ≠ "")
    (htok : extractToken hdr = a.heartbeatToken)
    (htokne : a.heartbeatToken ≠ "")
    (hstat : validStatusOpt req.status) :
    (agent_heartbeat db agent_id req (some hdr) now).2
      = .ok { success := true, agent_id := agent_id, last_seen := now,
              status := req.status.getD "online" } ∧
    (agent_heartbeat db agent_id req (some hdr) now).1
      = db.map (fun b => if b.id == agent_id then applyHeartbeat a req now else b) ∧
    (applyHeartbeat a req now).lastSeen = some now ∧
    (applyHeartbeat a req now).status = some (req.status.getD "online") ∧
    (applyHeartbeat a req now).load
      = (match req.load with | some l => some l | none => a.load) ∧
    (applyHeartbeat a req now).statusMessage
      = (match req.message with | some m => some m | none => a.statusMessage) ∧
    (applyHeartbeat a req now).id = a.id ∧
    (applyHeartbeat a req now).card = a.card ∧
    (applyHeartbeat a req now).registeredAt = a.registeredAt ∧
    (applyHeartbeat a req now).heartbeatToken = a.heartbeatToken ∧
    (applyHeartbeat a req now).name = a.name ∧
    (applyHeartbeat a req now).description = a.description ∧
    (applyHeartbeat a req now).url = a.url ∧
    (applyHeartbeat a req now).verified = a.verified := by
  have hs : heartbeatStatus req.status = req.status.getD "online" := by
    rcases hstat with h | h | h | h <;> simp [heartbeatStatus, h]
  refine ⟨?_, ?_, rfl, by simp [applyHeartbeat, hs], rfl, rfl, rfl, rfl, rfl, rfl,
    rfl, rfl, rfl, rfl⟩
  · simp [agent_heartbeat, hfind, hne, htok, htokne, hs]
  · simp [agent_heartbeat, hfind, hne, htok, htokne]

/-- C7, witnessed at a concrete successful heartbeat carrying an explicit
status. -/
theorem C7_heartbeat_success_updates_witness :
    (agent_heartbeat [recA] "my-agent" { status := some "busy" } (some "Bearer secret") 42).2
      = .ok { success := true, agent_id := "my-agent", last_seen := 42, status := "busy" } :=
  (C7_heartbeat_success_updates [recA] "my-agent" { status := some "busy" }
    "Bearer secret" 42 recA rfl (by decide) (by decide) (by decide)
    (Or.inr (Or.inr (Or.inr rfl)))).1

/-! ## Claim C8: collision probing -/

/-- Rendering of the first counter value. -/
lemma toString_one : (toString (1 : Nat)) = "1" := rfl

/-- Rendering of the incremented counter. -/
lemma toString_succ_one : (toString (1 + 1 : Nat)) = "2" := rfl

/-- One existing record occupying the base slug forces the suffix `-1`. -/
lemma probeId_one (r : AgentRecord) (base : String) (h : r.id = base) :
    probeId [r] base = base ++ "-1" := by
  have h1 : idTaken [r] base = true := by simp [idTaken, h]
  have h2 : idTaken [r] (base ++ ("-" ++ "1")) = false := by
    simp only [idTaken, List.any_cons, List.any_nil, Bool.or_false, h]
    exact beq_eq_false_iff_ne.mpr
      (fun he => strAppend_ne_self base ("-" ++ "1") (by decide) he.symm)
  show probeLoop [r] base base 1 2 = base ++ "-1"
  simp only [probeLoop, toString_one, String.append_assoc, h1, h2, if_true, if_false,
    Bool.false_eq_true, ite_true, ite_false]
  rfl

/-- Records occupying the base slug and its `-1` variant force `-2`. -/
lemma probeId_two (r1 r2 : AgentRecord) (base : String)
    (h1 : r1.id = base) (h2 : r2.id = base ++ "-1") :
    probeId [r1, r2] base = base ++ "-2" := by
  have ht1 : idTaken [r1, r2] base = true := by simp [idTaken, h1]
  have ht2 : idTaken [r1, r2] (base ++ ("-" ++ "1")) = true := by
    simp [idTaken, h1, h2]
  have ht3 : idTaken [r1, r2] (base ++ ("-" ++ "2")) = false := by
    have e1 : (base == base ++ "-2") = false :=
      beq_eq_false_iff_ne.mpr (fun he => strAppend_ne_self base "-2" (by decide) he.symm)
    have e2 : ((base ++ "-1") == base ++ "-2") = false :=
      beq_eq_false_iff_ne.mpr (strAppend_right_ne base (by decide))
    simp [idTaken, h1, h2, e1, e2]
  show probeLoop [r1, r2] base base 1 3 = base ++ "-2"
  simp only [probeLoop, toString_one, toString_succ_one, String.append_assoc, ht1, ht2, ht3,
    if_true, if_false, Bool.false_eq_true, ite_true, ite_false]
  rfl

/-- C8: registering three cards carrying the same name into an empty store
yields, in registration order, the base slug (the lowercased name with
spaces and underscores replaced by hyphens), then the slug suffixed `-1`,
then the slug suffixed `-2`; in particular the first two identifiers are
distinct. -/
theorem C8_same_name_collision_suffixes (c₁ c₂ c₃ : AgentCard) (t₁ t₂ t₃ : String)
    (n₁ n₂ n₃ : Int) (h₂ : c₂.name = c₁.name) (h₃ : c₃.name = c₁.name) :
    (register_agent [] c₁ t₁ n₁).2.agent_id = slugify c₁.name ∧
    (register_agent (register_agent [] c₁ t₁ n₁).1 c₂ t₂ n₂).2.agent_id
      = slugify c₁.name ++ "-1" ∧
    (register_agent (register_agent (register_agent [] c₁ t₁ n₁).1 c₂ t₂ n₂).1
        c₃ t₃ n₃).2.agent_id = slugify c₁.name ++ "-2" ∧
    (register_agent [] c₁ t₁ n₁).2.agent_id
      ≠ (register_agent (register_agent [] c₁ t₁ n₁).1 c₂ t₂ n₂).2.agent_id := by
  have e2 : (register_agent (register_agent [] c₁ t₁ n₁).1 c₂ t₂ n₂).2.agent_id
      = slugify c₁.name ++ "-1" := by
    show probeId (register_agent [] c₁ t₁ n₁).1 (slugify c₂.name) = slugify c₁.name ++ "-1"
    rw [h₂]
    exact probeId_one _ _ rfl
  have e3 : (register_agent (register_agent (register_agent [] c₁ t₁ n₁).1 c₂ t₂ n₂).1
      c₃ t₃ n₃).2.agent_id = slugify c₁.name ++ "-2" := by
    show probeId (register_agent (register_agent [] c₁ t₁ n₁).1 c₂ t₂ n₂).1 (slugify c₃.name)
        = slugify c₁.name ++ "-2"
    rw [h₃]
    apply probeId_two
    · rfl
    · show probeId (register_agent [] c₁ t₁ n₁).1 (slugify c₂.name) = slugify c₁.name ++ "-1"
      rw [h₂]
      exact probeId_one _ _ rfl
  refine ⟨rfl, e2, e3, ?_⟩
  rw [e2]
  show slugify c₁.name ≠ slugify c₁.name ++ "-1"
  exact fun he => strAppend_ne_self _ "-1" (by decide) he.symm

/-- C8, witnessed by registering `goodCard` three times. -/
theorem C8_same_name_collision_suffixes_witness :
    (register_agent [] goodCard "t1" 0).2.agent_id = slugify goodCard.name ∧
    (register_agent (register_agent [] goodCard "t1" 0).1 goodCard "t2" 1).2.agent_id
      = slugify goodCard.name ++ "-1" ∧
    (register_agent (register_agent (register_agent [] goodCard "t1" 0).1 goodCard "t2" 1).1
        goodCard "t3" 2).2.agent_id = slugify goodCard.name ++ "-2" ∧
    (register_agent [] goodCard "t1" 0).2.agent_id
      ≠ (register_agent (register_agent [] goodCard "t1" 0).1 goodCard "t2" 1).2.agent_id :=
  C8_same_name_collision_suffixes goodCard goodCard goodCard "t1" "t2" "t3" 0 1 2 rfl rfl

/-! ## Claim C9: responses never depend on the stored heartbeat token -/

/-- Rewrite every record's stored heartbeat token with an arbitrary
function of the record. -/
def setToken (f : AgentRecord → String) (a : AgentRecord) : AgentRecord :=
  { a with heartbeatToken := f a }

/-- A filter whose predicate ignores the token commutes with `setToken`. -/
lemma filter_map_setToken (f : AgentRecord → String) (p : AgentRecord → Bool)
    (hp : ∀ a, p (setToken f a) = p a) (l : List AgentRecord) :
    (l.map (setToken f)).filter p = (l.filter p).map (setToken f) := by
  induction l with
  | nil => rfl
  | cons a rest ih =>
    simp only [List.map_cons, List.filter_cons, hp a]
    cases hpa : p a <;> simp [hpa, ih]

/-- The free-text filter ignores stored tokens. -/
lemma qFilter_setToken (f : AgentRecord → String) (q : Option String) (l : List AgentRecord) :
    qFilter (l.map (setToken f)) q = (qFilter l q).map (setToken f) := by
  cases q with
  | none => rfl
  | some s =>
    unfold qFilter
    by_cases h : s = ""
    · simp [h]
    · simp only [h, if_false, ite_false]
      exact filter_map_setToken f
        (fun a => strContainsCI a.name s || strContainsCI a.description s) (fun a => rfl) l

/-- The online filter ignores stored tokens. -/
lemma onlineFilter_setToken (f : AgentRecord → String) (o : Option Bool) (now : Int)
    (l : List AgentRecord) :
    onlineFilter (l.map (setToken f)) o now = (onlineFilter l o now).map (setToken f) := by
  cases o with
  | none => rfl
  | some b =>
    cases b
    · exact filter_map_setToken f
        (fun a => match a.lastSeen with
          | some t => decide (t ≤ now - onlineThresholdSeconds)
          | none => true) (fun a => rfl) l
    · exact filter_map_setToken f
        (fun a => match a.lastSeen with
          | some t => decide (now - onlineThresholdSeconds < t)
          | none => false) (fun a => rfl) l

/-- The status filter ignores stored tokens. -/
lemma statusFilter_setToken (f : AgentRecord → String) (st : Option String)
    (l : List AgentRecord) :
    statusFilter (l.map (setToken f)) st = (statusFilter l st).map (setToken f) := by
  cases st with
  | none => rfl
  | some s =>
    unfold statusFilter
    by_cases h : s = ""
    · simp [h]
    · simp only [h, if_false, ite_false]
      exact filter_map_setToken f (fun a => a.status == some s) (fun a => rfl) l

/-- The in-Python search loop ignores stored tokens. -/
lemma searchLoop_setToken (f : AgentRecord → String) (p : SearchParams) (now : Int)
    (l : List AgentRecord) :
    searchLoop p now (l.map (setToken f)) = searchLoop p now l := by
  induction l with
  | nil => rfl
  | cons a rest ih =>
    have h1 : recPassesSkill p (setToken f a) = recPassesSkill p a := rfl
    have h2 : recPassesTag p (setToken f a) = recPassesTag p a := rfl
    have h3 : recCapGate p (setToken f a) = recCapGate p a := rfl
    have h4 : agent_model_to_response (setToken f a) true now
        = agent_model_to_response a true now := rfl
    simp only [List.map_cons, searchLoop, h1, h2, h3, h4, ih]

/-- The point-read lookup commutes with the token rewrite. -/
lemma find?_setToken (f : AgentRecord → String) (gid : String) (l : List AgentRecord) :
    (l.map (setToken f)).find? (fun b => b.id == gid)
      = (l.find? (fun b => b.id == gid)).map (setToken f) := by
  induction l with
  | nil => rfl
  | cons a rest ih =>
    simp only [List.map_cons, List.find?]
    have hc : ((setToken f a).id == gid) = (a.id == gid) := rfl
    rw [hc]
    cases hpa : (a.id == gid) with
    | true => rfl
    | false => exact ih

/-- C9: no read operation exposes the heartbeat token — rewriting every
stored token arbitrarily leaves the rendered record, the search results,
the listing, and the point read unchanged, so two stores identical except
for their tokens produce identical read/search/list responses. -/
theorem C9_responses_independent_of_token (db : List AgentRecord)
    (f : AgentRecord → String) (a : AgentRecord) (include_state : Bool)
    (p : SearchParams) (lim off : Nat) (onl : Option Bool) (st : Option String)
    (gid : String) (now : Int) :
    agent_model_to_response (setToken f a) include_state now
      = agent_model_to_response a include_state now ∧
    search_agents (db.map (setToken f)) p now = search_agents db p now ∧
    list_agents (db.map (setToken f)) lim off onl st now
      = list_agents db lim off onl st now ∧
    get_agent (db.map (setToken f)) gid now = get_agent db gid now := by
  refine ⟨rfl, ?_, ?_, ?_⟩
  · unfold search_agents
    rw [qFilter_setToken, onlineFilter_setToken, statusFilter_setToken, searchLoop_setToken]
  · unfold list_agents
    rw [onlineFilter_setToken, statusFilter_setToken]
    rw [← List.map_drop, ← List.map_take, List.map_map, List.length_map]
    rw [show ((fun b => agent_model_to_response b true now) ∘ setToken f)
        = (fun b => agent_model_to_response b true now) from funext fun b => rfl]
  · unfold get_agent
    rw [find?_setToken]
    cases h : db.find? (fun b => b.id == gid) with
    | none => rfl
    | some x => rfl

/-! ## Claim C10: Bearer stripping in heartbeat authentication -/

/-- C10: heartbeat authentication removes every occurrence of the
substring `Bearer ` from the Authorization header and trims surrounding
whitespace before comparing with the stored token: a nonempty header is
accepted exactly when the stripped token is nonempty and equals the
stored token (so a raw token with no prefix is authorized), and a header
whose remaining content is empty is always rejected. -/
theorem C10_bearer_stripping_auth
    (db : List AgentRecord) (agent_id : String) (req : HeartbeatRequest) (now : Int)
    (a : AgentRecord) (hfind : db.find? (fun b => b.id == agent_id) = some a) :
    (∀ hd, hd ≠ "" →
      ((∃ r, (agent_heartbeat db agent_id req (some hd) now).2 = .ok r) ↔
        (extractToken hd ≠ "" ∧ extractToken hd = a.heartbeatToken))) ∧
    (a.heartbeatToken ≠ "" →
      strReplace a.heartbeatToken "Bearer " "" = a.heartbeatToken →
      strTrim a.heartbeatToken = a.heartbeatToken →
      ∃ r, (agent_heartbeat db agent_id req (some a.heartbeatToken) now).2 = .ok r) ∧
    (∀ hd, extractToken hd = "" →
      ∀ r, (agent_heartbeat db agent_id req (some hd) now).2 ≠ .ok r) := by
  have main : ∀ hd, hd ≠ "" →
      ((∃ r, (agent_heartbeat db agent_id req (some hd) now).2 = .ok r) ↔
        (extractToken hd ≠ "" ∧ extractToken hd = a.heartbeatToken)) := by
    intro hd hne
    constructor
    · rintro ⟨r, hr⟩
      by_cases ht1 : extractToken hd = ""
      · simp [agent_heartbeat, hfind, hne, ht1] at hr
      · by_cases ht2 : extractToken hd = a.heartbeatToken
        · exact ⟨ht1, ht2⟩
        · simp [agent_heartbeat, hfind, hne, ht1, ht2] at hr
    · rintro ⟨ht1, ht2⟩
      have ht3 : a.heartbeatToken ≠ "" := ht2 ▸ ht1
      refine ⟨⟨true, agent_id, now, heartbeatStatus req.status⟩, ?_⟩
      simp [agent_heartbeat, hfind, hne, ht2, ht3]
  refine ⟨main, ?_, ?_⟩
  · intro h1 h2 h3
    have he : extractToken a.heartbeatToken = a.heartbeatToken := by
      unfold extractToken
      rw [h2, h3]
    exact (main a.heartbeatToken h1).mpr ⟨by rw [he]; exact h1, he⟩
  · intro hd hzero r hr
    by_cases hhd : hd = ""
    · simp [agent_heartbeat, hhd, hfind] at hr
    · simp [agent_heartbeat, hfind, hhd, hzero] at hr

/-- C10, witnessed: the raw token, the `Bearer `-prefixed token, and a
doubly prefixed header are all accepted for the stored token `secret`. -/
theorem C10_bearer_stripping_auth_witness :
    (∃ r, (agent_heartbeat [recA] "my-agent" {} (some "secret") 9).2 = .ok r) ∧
    (∃ r, (agent_heartbeat [recA] "my-agent" {} (some "Bearer secret") 9).2 = .ok r) ∧
    (∃ r, (agent_heartbeat [recA] "my-agent" {} (some "Bearer Bearer secret") 9).2 = .ok r) :=
  ⟨((C10_bearer_stripping_auth [recA] "my-agent" {} 9 recA rfl).1 "secret"
      (by decide)).mpr ⟨by decide, by decide⟩,
   ((C10_bearer_stripping_auth [recA] "my-agent" {} 9 recA rfl).1 "Bearer secret"
      (by decide)).mpr ⟨by decide, by decide⟩,
   ((C10_bearer_stripping_auth [recA] "my-agent" {} 9 recA rfl).1 "Bearer Bearer secret"
      (by decide)).mpr ⟨by decide, by decide⟩⟩

end A2A
